import Mathlib

set_option maxRecDepth 8000

/-!
Shallow embedding of the urban-parameter calculation core of the aeco-backend
repository (LC 108/2009, as amended by LC 415/2023), together with theorems
settling the specification claims.

Embedded source files:
* `backend/app/services/parametros_urbanisticos_service.py`
  (`ParametrosUrbanisticosService`: the six parameter evaluators and the
  aggregator `calcular_todos_parametros`);
* `backend/app/models/parametros_urbanisticos.py`
  (`ParametroCalculado`, `DadosCalculoParametros`);
* `backend/app/services/validacao_zone_service.py`
  (`ValidacaoZoneService.get_campos_condicionais_por_zona_e_natureza` and
  `ValidacaoZoneService.validate_campos_por_natureza`).

Modelling conventions:
* Python `str` is Lean `String`; `str.strip` / `upper` / `lower` /
  `capitalize` / `startswith` are modelled over `List Char`
  (`pyStrip`, `pyUpper`, `pyLower`, `pyCapitalize`, `pyStartsWith`),
  with the ASCII case maps `Char.toUpper` / `Char.toLower`.
* Python floats are modelled as `ℚ`; `f"{x:.nf}"` formatting is
  `pyFormatFixed` (round half to even, as Python's `format`).
* Python `Optional` values are `Option`; Python truthiness of an optional
  string (`if avenida:`) is `pyTruthy` (`none` and `some ""` are falsy).
* The `valor: Any` field holds a float, a string or `None`; it is modelled
  as `Option Valor` with `Valor = num ℚ | str String`.
* Functions that can raise are modelled with `Except String`.
-/

/-- Python `str.strip()`: drop whitespace from both ends. -/
def pyStrip (s : String) : String :=
  ⟨((s.data.dropWhile Char.isWhitespace).reverse.dropWhile Char.isWhitespace).reverse⟩

/-- Python `str.upper()` (ASCII case map). -/
def pyUpper (s : String) : String := ⟨s.data.map Char.toUpper⟩

/-- Python `str.lower()` (ASCII case map). -/
def pyLower (s : String) : String := ⟨s.data.map Char.toLower⟩

/-- Python `str.capitalize()` on a list of characters: first character
upper-cased, all remaining characters lower-cased. -/
def pyCapitalizeList : List Char → List Char
  | [] => []
  | c :: cs => c.toUpper :: cs.map Char.toLower

/-- Python `str.capitalize()`. -/
def pyCapitalize (s : String) : String := ⟨pyCapitalizeList s.data⟩

/-- Python `s.startswith(pre)`. -/
def pyStartsWith (s pre : String) : Bool := pre.data.isPrefixOf s.data

/-- Python `max(a, b)` on two numbers (returns `b` only when `a < b`). -/
def pyMax (a b : ℚ) : ℚ := if a < b then b else a

/-- Python truthiness of an optional string: `None` and `""` are falsy. -/
def pyTruthy : Option String → Bool
  | none => false
  | some s => !(s == "")

/-- Round a rational to the nearest integer, ties to even
(the rounding used by Python's fixed-point formatting). -/
def pyRound (q : ℚ) : ℤ :=
  let f : ℤ := q.floor
  if q - f < 1/2 then f
  else if 1/2 < q - f then f + 1
  else if f % 2 = 0 then f else f + 1

/-- Left-pad a decimal digit string with zeros to width `n`. -/
def padZeros (s : String) (n : Nat) : String :=
  ⟨List.replicate (n - s.length) '0' ++ s.data⟩

/-- Python `f"{q:.precf}"`: fixed-point rendering with `prec` digits after
the decimal point, round half to even. -/
def pyFormatFixed (prec : Nat) (q : ℚ) : String :=
  let scaled : ℤ := pyRound (q * (10 : ℚ) ^ prec)
  let sign : String := if scaled < 0 then "-" else ""
  let a : ℕ := scaled.natAbs
  let ipart : ℕ := a / 10 ^ prec
  let fpart : ℕ := a % 10 ^ prec
  if prec = 0 then sign ++ toString ipart
  else sign ++ toString ipart ++ "." ++ padZeros (toString fpart) prec

/-- The value slot of a calculated parameter (`valor: Any` in the Pydantic
model holds either a number or a symbolic string when present). -/
inductive Valor where
  | num (q : ℚ)
  | str (s : String)
deriving DecidableEq, Repr

/-- `ParametroCalculado` (backend/app/models/parametros_urbanisticos.py):
one calculated parameter. -/
structure ParametroCalculado where
  nome : String
  valor : Option Valor
  unidade : String
  regra_aplicada : String
  dependencias : List String
  erro : Option String
deriving DecidableEq, Repr

/-- `DadosCalculoParametros` (backend/app/models/parametros_urbanisticos.py):
the calculation input record. `zona` and `tipologia` are required fields;
the remaining fields are optional. -/
structure DadosCalculoParametros where
  zona : String
  tipologia : String
  municipio : String := "SORRISO"
  pavimentos : Option ℤ := none
  altura_total : Option ℚ := none
  avenida : Option String := none
  natureza : Option String := none
  zona_atravessada : Option String := none
deriving DecidableEq, Repr

/-! ## Zone rule catalog (the set literals of the service) -/

/-- `zonas_padrao` of `_calcular_recuo_frontal`. -/
def zonas_padrao : List String :=
  ["ZC1", "ZC2", "ZAD1", "ZAD2", "ZH2", "ZH3", "ZCT1", "ZCT2", "ZCT3"]

/-- `grupo_min_15` of `_calcular_recuo_lateral` / `_calcular_recuo_fundos`:
zones whose lateral/rear setback minimum is 1.5 m. -/
def grupo_min_15 : List String :=
  ["ZC1", "ZC2", "ZAD1", "ZAD2", "ZH1", "ZH2", "ZH3", "ZHL", "ZEIS"]

/-- `grupo_min_20`: zones whose lateral/rear setback minimum is 2.0 m. -/
def grupo_min_20 : List String := ["ZI1", "ZI2"]

/-- `regras` of `_calcular_testada_minima`: the (zone, nature) frontage
table. -/
def regras_testada : List ((String × String) × ℚ) :=
  [ (("ZAD1", "desmembramento"), 10), (("ZAD1", "loteamento e condominio"), 15),
    (("ZAD2", "desmembramento"), 10), (("ZAD2", "loteamento e condominio"), 15),
    (("ZH2", "desmembramento"), 10), (("ZH2", "loteamento e condominio"), 15),
    (("ZH3", "desmembramento"), 10), (("ZH3", "loteamento e condominio"), 12),
    (("ZCT2", "desmembramento"), 10), (("ZCT2", "loteamento e condominio"), 15),
    (("ZCT3", "desmembramento"), 10), (("ZCT3", "loteamento e condominio"), 15),
    (("ZCT4", "desmembramento"), 10), (("ZCT4", "loteamento e condominio"), 15) ]

/-- `avenidas_livres` of `_calcular_altura_maxima` / `_calcular_outorga_onerosa`:
the avenue whitelist. -/
def avenidas_livres : List String :=
  [ "Av. Porto Alegre", "Av. dos Emigrantes", "Av. Paulista",
    "Av. Brasil", "Av. Joao Natalino Brescansin", "Av. Tancredo Neves" ]

/-! ## Parameter evaluators
(`backend/app/services/parametros_urbanisticos_service.py`) -/

/-- `ParametrosUrbanisticosService._calcular_recuo_frontal`. -/
def calcular_recuo_frontal (zona0 tipologia0 : String) : ParametroCalculado :=
  let zona := pyUpper (pyStrip zona0)
  let tipologia := pyCapitalize (pyStrip tipologia0)
  if zonas_padrao.contains zona then
    if tipologia = "Residencial" then
      { nome := "recuo_frontal", valor := some (.num 4), unidade := "metros",
        regra_aplicada := "Zona " ++ zona ++ " - Uso Residencial",
        dependencias := ["zona", "tipologia"], erro := none }
    else if tipologia = "Comercial" then
      { nome := "recuo_frontal", valor := some (.num (3/2)), unidade := "metros",
        regra_aplicada := "Zona " ++ zona ++ " - Uso Comercial",
        dependencias := ["zona", "tipologia"], erro := none }
    else
      { nome := "recuo_frontal", valor := none, unidade := "metros",
        regra_aplicada := "Zona " ++ zona ++ " - Uso " ++ tipologia,
        dependencias := ["zona", "tipologia"],
        erro := some ("⚠️ Uso " ++ tipologia ++ " não reconhecido para zona " ++ zona) }
  else if zona = "ZEIS" then
    if tipologia = "Residencial" then
      { nome := "recuo_frontal", valor := some (.num 2), unidade := "metros",
        regra_aplicada := "Zona " ++ zona ++ " - Uso Residencial",
        dependencias := ["zona", "tipologia"], erro := none }
    else if tipologia = "Comercial" then
      { nome := "recuo_frontal", valor := some (.num (3/2)), unidade := "metros",
        regra_aplicada := "Zona " ++ zona ++ " - Uso Comercial",
        dependencias := ["zona", "tipologia"], erro := none }
    else
      { nome := "recuo_frontal", valor := none, unidade := "metros",
        regra_aplicada := "Zona " ++ zona ++ " - Uso " ++ tipologia,
        dependencias := ["zona", "tipologia"],
        erro := some ("⚠️ Uso " ++ tipologia ++ " não reconhecido para zona " ++ zona) }
  else
    { nome := "recuo_frontal", valor := none, unidade := "metros",
      regra_aplicada := "Zona " ++ zona,
      dependencias := ["zona"],
      erro := some ("⚠️ Zona " ++ zona ++ " não encontrada") }

example : (calcular_recuo_frontal " zc1 " "RESIDENCIAL").valor = some (.num 4) := by decide
example : (calcular_recuo_frontal "ZEIS" "comercial").valor = some (.num (3/2)) := by
  with_unfolding_all decide
example : (calcular_recuo_frontal "ZZZ" "Residencial").erro
    = some "⚠️ Zona ZZZ não encontrada" := by decide

/-- `ParametrosUrbanisticosService._calcular_recuo_lateral`. -/
def calcular_recuo_lateral (zona0 : String) (pavimentos : Option ℤ)
    (altura_total : Option ℚ) (zona_atravessada : Option String) : ParametroCalculado :=
  let zona := pyUpper (pyStrip zona0)
  let zona_ref :=
    if pyStartsWith zona "ZCT" && pyTruthy zona_atravessada then
      pyUpper (pyStrip (zona_atravessada.getD ""))
    else zona
  match pavimentos, altura_total with
  | some p, some h =>
    let min_recuo? : Option ℚ :=
      if grupo_min_15.contains zona_ref then some (3/2)
      else if grupo_min_20.contains zona_ref then some 2
      else none
    match min_recuo? with
    | none =>
      { nome := "recuo_lateral", valor := none, unidade := "metros",
        regra_aplicada := "Zona " ++ zona,
        dependencias := ["zona"],
        erro := some ("⚠️ Zona " ++ zona ++ " não cadastrada em nenhuma regra") }
    | some min_recuo =>
      if p ≤ 2 then
        { nome := "recuo_lateral",
          valor := some (.str ("0 m (exceto se houver aberturas → mínimo "
            ++ pyFormatFixed 1 min_recuo ++ " m)")),
          unidade := "metros",
          regra_aplicada := "Zona " ++ zona ++ " - Até 2 pavimentos",
          dependencias := ["zona", "pavimentos", "altura_total"], erro := none }
      else
        let recuo_calc := h / 10
        let recuo_final := pyMax recuo_calc min_recuo
        { nome := "recuo_lateral",
          valor := some (.str (pyFormatFixed 2 recuo_final ++ " m")),
          unidade := "metros",
          regra_aplicada := "Zona " ++ zona ++ " - " ++ toString p
            ++ " pavimentos, altura " ++ pyFormatFixed 1 h ++ "m",
          dependencias := ["zona", "pavimentos", "altura_total"], erro := none }
  | _, _ =>
    { nome := "recuo_lateral", valor := none, unidade := "metros",
      regra_aplicada := "Zona " ++ zona,
      dependencias := ["zona", "pavimentos", "altura_total"],
      erro := some "⚠️ Dados insuficientes para cálculo (pavimentos e altura total necessários)" }

/-- `ParametrosUrbanisticosService._calcular_recuo_fundos` (the source
duplicates the lateral-setback logic verbatim, with `nome` changed). -/
def calcular_recuo_fundos (zona0 : String) (pavimentos : Option ℤ)
    (altura_total : Option ℚ) (zona_atravessada : Option String) : ParametroCalculado :=
  let zona := pyUpper (pyStrip zona0)
  let zona_ref :=
    if pyStartsWith zona "ZCT" && pyTruthy zona_atravessada then
      pyUpper (pyStrip (zona_atravessada.getD ""))
    else zona
  match pavimentos, altura_total with
  | some p, some h =>
    let min_recuo? : Option ℚ :=
      if grupo_min_15.contains zona_ref then some (3/2)
      else if grupo_min_20.contains zona_ref then some 2
      else none
    match min_recuo? with
    | none =>
      { nome := "recuo_fundos", valor := none, unidade := "metros",
        regra_aplicada := "Zona " ++ zona,
        dependencias := ["zona"],
        erro := some ("⚠️ Zona " ++ zona ++ " não cadastrada em nenhuma regra") }
    | some min_recuo =>
      if p ≤ 2 then
        { nome := "recuo_fundos",
          valor := some (.str ("0 m (exceto se houver aberturas → mínimo "
            ++ pyFormatFixed 1 min_recuo ++ " m)")),
          unidade := "metros",
          regra_aplicada := "Zona " ++ zona ++ " - Até 2 pavimentos",
          dependencias := ["zona", "pavimentos", "altura_total"], erro := none }
      else
        let recuo_calc := h / 10
        let recuo_final := pyMax recuo_calc min_recuo
        { nome := "recuo_fundos",
          valor := some (.str (pyFormatFixed 2 recuo_final ++ " m")),
          unidade := "metros",
          regra_aplicada := "Zona " ++ zona ++ " - " ++ toString p
            ++ " pavimentos, altura " ++ pyFormatFixed 1 h ++ "m",
          dependencias := ["zona", "pavimentos", "altura_total"], erro := none }
  | _, _ =>
    { nome := "recuo_fundos", valor := none, unidade := "metros",
      regra_aplicada := "Zona " ++ zona,
      dependencias := ["zona", "pavimentos", "altura_total"],
      erro := some "⚠️ Dados insuficientes para cálculo (pavimentos e altura total necessários)" }

/-- `ParametrosUrbanisticosService._calcular_testada_minima`. -/
def calcular_testada_minima (zona0 : String) (natureza0 : Option String) : ParametroCalculado :=
  let zona := pyUpper (pyStrip zona0)
  let natureza : Option String :=
    match natureza0 with
    | some n => if n = "" then none else some (pyLower (pyStrip n))
    | none => none
  match natureza with
  | none =>
    { nome := "testada_minima", valor := none, unidade := "metros",
      regra_aplicada := "Zona " ++ zona,
      dependencias := ["zona", "natureza"],
      erro := some "⚠️ Natureza do empreendimento necessária para cálculo" }
  | some nat =>
    if nat = "não se aplica" then
      { nome := "testada_minima", valor := none, unidade := "metros",
        regra_aplicada := "Zona " ++ zona ++ " - Não se aplica",
        dependencias := ["zona", "natureza"], erro := none }
    else if nat = "" then
      { nome := "testada_minima", valor := none, unidade := "metros",
        regra_aplicada := "Zona " ++ zona,
        dependencias := ["zona", "natureza"],
        erro := some "⚠️ Natureza do empreendimento necessária para cálculo" }
    else
      match regras_testada.lookup (zona, nat) with
      | none =>
        { nome := "testada_minima", valor := none, unidade := "metros",
          regra_aplicada := "Zona " ++ zona ++ " - Natureza " ++ nat,
          dependencias := ["zona", "natureza"],
          erro := some ("⚠️ Combinação zona " ++ zona ++ " + natureza " ++ nat
            ++ " não encontrada") }
      | some parametro =>
        { nome := "testada_minima", valor := some (.num parametro), unidade := "metros",
          regra_aplicada := "Zona " ++ zona ++ " - Natureza " ++ nat,
          dependencias := ["zona", "natureza"], erro := none }

/-- `ParametrosUrbanisticosService._calcular_altura_maxima`. -/
def calcular_altura_maxima (zona0 : String) (avenida : Option String) : ParametroCalculado :=
  let zona := pyUpper (pyStrip zona0)
  let success : Valor → String → ParametroCalculado := fun v regra =>
    { nome := "altura_maxima", valor := some v,
      unidade := match v with | .num _ => "metros" | .str _ => "livre",
      regra_aplicada := regra,
      dependencias := if pyTruthy avenida then ["zona", "avenida"] else ["zona"],
      erro := none }
  if zona = "ZC1" then
    success (.num 12) ("Zona " ++ zona ++ " - Altura máxima fixa")
  else if zona = "ZC2" then
    success (.num 8) ("Zona " ++ zona ++ " - Altura máxima fixa")
  else if zona = "ZII" then
    success (.num 2)
      ("Zona " ++ zona ++ " - Altura máxima fixa (consultar CONDESS para mais pavimentos)")
  else if zona = "ZAD2" ∨ zona = "ZCT1" then
    success (.str "livre") ("Zona " ++ zona ++ " - Altura livre")
  else if zona = "ZCT2" ∨ zona = "ZCT4" then
    if !(pyTruthy avenida) then
      { nome := "altura_maxima", valor := none, unidade := "metros",
        regra_aplicada := "Zona " ++ zona,
        dependencias := ["zona", "avenida"],
        erro := some "⚠️ Avenida necessária para cálculo" }
    else
      let av := avenida.getD ""
      if avenidas_livres.contains av then
        success (.str "livre") ("Zona " ++ zona ++ " - Avenida " ++ av ++ " (altura livre)")
      else
        success (.num 12) ("Zona " ++ zona ++ " - Avenida " ++ av ++ " (altura padrão)")
  else
    { nome := "altura_maxima", valor := none, unidade := "metros",
      regra_aplicada := "Zona " ++ zona,
      dependencias := ["zona"],
      erro := some ("⚠️ Zona " ++ zona ++ " não encontrada") }

/-- `ParametrosUrbanisticosService._calcular_outorga_onerosa`. -/
def calcular_outorga_onerosa (zona0 : String) (avenida : Option String) : ParametroCalculado :=
  let zona := pyUpper (pyStrip zona0)
  let success : String → String → ParametroCalculado := fun v regra =>
    { nome := "outorga_onerosa", valor := some (.str v), unidade := "status",
      regra_aplicada := regra,
      dependencias := if pyTruthy avenida then ["zona", "avenida"] else ["zona"],
      erro := none }
  if (zona = "ZCT2" ∨ zona = "ZCT4") ∧ pyTruthy avenida then
    let av := avenida.getD ""
    if avenidas_livres.contains av then
      success "livre" ("Zona " ++ zona ++ " - Avenida " ++ av ++ " (sem cobrança)")
    else
      success "cobrança" ("Zona " ++ zona ++ " - Avenida " ++ av ++ " (com cobrança)")
  else
    success "cobrança" ("Zona " ++ zona ++ " - Cobrança padrão")

/-- Attribute access `dados.tipo_empreendimento` performed by
`calcular_todos_parametros` (line 25 of the service). The Pydantic model
`DadosCalculoParametros` declares no field named `tipo_empreendimento`
(its use/typology field is named `tipologia`), so this attribute access
raises `AttributeError`; it is modelled as the corresponding `Except.error`. -/
def DadosCalculoParametros.tipo_empreendimento (_ : DadosCalculoParametros) :
    Except String String :=
  .error "AttributeError: 'DadosCalculoParametros' object has no attribute 'tipo_empreendimento'"

/-- `ParametrosUrbanisticosService.calcular_todos_parametros`: runs the six
evaluators and collects the results into an insertion-ordered mapping.
The surrounding `try/except` logs and re-raises, so an exception inside the
block propagates to the caller; this is modelled with `Except`. -/
def calcular_todos_parametros (dados : DadosCalculoParametros) :
    Except String (List (String × ParametroCalculado)) := do
  let tipo ← dados.tipo_empreendimento
  let recuo_frontal := calcular_recuo_frontal dados.zona tipo
  let recuo_lateral := calcular_recuo_lateral dados.zona dados.pavimentos
    dados.altura_total dados.zona_atravessada
  let recuo_fundos := calcular_recuo_fundos dados.zona dados.pavimentos
    dados.altura_total dados.zona_atravessada
  let testada_minima := calcular_testada_minima dados.zona dados.natureza
  let altura_maxima := calcular_altura_maxima dados.zona dados.avenida
  let outorga_onerosa := calcular_outorga_onerosa dados.zona dados.avenida
  return [ ("recuo_frontal", recuo_frontal), ("recuo_lateral", recuo_lateral),
    ("recuo_fundos", recuo_fundos), ("testada_minima", testada_minima),
    ("altura_maxima", altura_maxima), ("outorga_onerosa", outorga_onerosa) ]

example : (calcular_recuo_lateral "ZC1" (some 5) (some 20) none).valor
    = some (.str "2.00 m") := by with_unfolding_all rfl
example : (calcular_recuo_lateral "ZC1" (some 2) (some 10) none).valor
    = some (.str "0 m (exceto se houver aberturas → mínimo 1.5 m)") := by
  with_unfolding_all rfl
example : (calcular_recuo_lateral "ZCT2" (some 5) (some 20) (some "zi1")).valor
    = some (.str "2.00 m") := by with_unfolding_all rfl
example : (calcular_testada_minima "ZAD1" (some "Desmembramento")).valor
    = some (.num 10) := by with_unfolding_all rfl
example : (calcular_testada_minima "ZAD1" (some "Não se aplica")).valor = none := by
  with_unfolding_all rfl
example : (calcular_testada_minima "ZAD1" (some "Não se aplica")).erro = none := by
  with_unfolding_all rfl
example : (calcular_altura_maxima "ZCT2" (some "Av. Paulista")).valor
    = some (.str "livre") := by with_unfolding_all rfl
example : (calcular_altura_maxima "ZCT2" (some "av. paulista ")).valor
    = some (.num 12) := by with_unfolding_all rfl
example : (calcular_outorga_onerosa "ZH2" (some "Av. Paulista")).valor
    = some (.str "cobrança") := by with_unfolding_all rfl

/-! ## Field dependency resolver
(`backend/app/services/validacao_zone_service.py`) -/

/-- `ValidacaoZoneService.zonas_com_avenida`. -/
def zonas_com_avenida : List String := ["ZCT2", "ZCT4"]

/-- `ValidacaoZoneService.zonas_com_testada`. -/
def zonas_com_testada : List String :=
  ["ZAD1", "ZAD2", "ZH2", "ZH3", "ZCT2", "ZCT3", "ZCT4"]

/-- `ValidacaoZoneService.naturezas_com_testada`. -/
def naturezas_com_testada : List String := ["Desmembramento", "Loteamento e Condomínio"]

/-- `ValidacaoZoneService.naturezas_arquitetonico`. -/
def naturezas_arquitetonico : List String := ["Arquitetonico"]

/-- `ValidacaoZoneService.naturezas_urbanistico`. -/
def naturezas_urbanistico : List String := ["Urbanistico"]

/-- Result shape of `get_campos_condicionais_por_zona_e_natureza`. -/
structure CamposCondicionais where
  zona : String
  natureza : String
  campos_visiveis : List String
  campos_ocultos : List String
  campos_obrigatorios : List String
  campos_opcionais : List String
deriving DecidableEq, Repr

/-- `ValidacaoZoneService.get_campos_condicionais_por_zona_e_natureza`.
The four blocks below correspond to the four mutation blocks of the Python
body (minimum frontage, minimum lot area, technical fields, avenue); the
lists collect the `append`/`extend` calls in execution order. -/
def get_campos_condicionais_por_zona_e_natureza (zona0 natureza0 : String) :
    CamposCondicionais :=
  let zona := pyUpper (pyStrip zona0)
  let natureza := pyStrip natureza0
  let vo1 : List String × List String × List String :=
    if zonas_com_testada.contains zona then
      if naturezas_com_testada.contains natureza then
        (["testada_minima"], [], ["testada_minima"])
      else if natureza = "Não se aplica" then ([], ["testada_minima"], [])
      else ([], [], [])
    else ([], [], [])
  let vo2 : List String × List String × List String :=
    if naturezas_com_testada.contains natureza then
      (["area_minima_lote"], [], ["area_minima_lote"])
    else if ["Não se aplica", "Arquitetonico", "Urbanistico"].contains natureza then
      ([], ["area_minima_lote"], [])
    else ([], [], [])
  let ob3 : List String :=
    if naturezas_arquitetonico.contains natureza then
      ["pavimentos", "altura_total", "area_construida"]
    else if naturezas_urbanistico.contains natureza then ["area_construida"]
    else []
  let vo4 : List String × List String × List String :=
    if zonas_com_avenida.contains zona then (["avenida"], [], ["avenida"])
    else ([], ["avenida"], [])
  { zona := zona, natureza := natureza,
    campos_visiveis := vo1.1 ++ vo2.1 ++ vo4.1,
    campos_ocultos := vo1.2.1 ++ vo2.2.1 ++ vo4.2.1,
    campos_obrigatorios := vo1.2.2 ++ vo2.2.2 ++ ob3 ++ vo4.2.2,
    campos_opcionais := [] }

/-- Result shape of `validate_campos_por_natureza`. -/
structure ValidacaoNatureza where
  natureza : String
  campos_obrigatorios : List String
  campos_opcionais : List String
  campos_ignorados : List String
  mensagens : List String
deriving DecidableEq, Repr

/-- `ValidacaoZoneService.validate_campos_por_natureza`. The
`campos_preenchidos` argument is accepted, as in the source signature, but
no branch of the body reads it. -/
def validate_campos_por_natureza (natureza : String)
    (campos_preenchidos : List (String × String)) : ValidacaoNatureza :=
  let _ := campos_preenchidos
  if natureza = "Não se aplica" then
    { natureza := natureza, campos_obrigatorios := [], campos_opcionais := [],
      campos_ignorados := ["testada_minima", "area_minima_lote"],
      mensagens := ["ℹ️ Testada mínima e área mínima do lote não se aplicam para este tipo de projeto"] }
  else if naturezas_com_testada.contains natureza then
    { natureza := natureza,
      campos_obrigatorios := ["testada_minima", "area_minima_lote"],
      campos_opcionais := [], campos_ignorados := [],
      mensagens := ["⚠️ Testada mínima e área mínima do lote são obrigatórias para loteamentos e desmembramentos"] }
  else if naturezas_arquitetonico.contains natureza then
    { natureza := natureza,
      campos_obrigatorios := ["pavimentos", "altura_total", "area_construida"],
      campos_opcionais := [], campos_ignorados := [],
      mensagens := ["⚠️ Pavimentos, altura total e área construída são obrigatórios para projetos arquitetônicos"] }
  else if naturezas_urbanistico.contains natureza then
    { natureza := natureza,
      campos_obrigatorios := ["area_construida"],
      campos_opcionais := [], campos_ignorados := [],
      mensagens := ["⚠️ Área construída é obrigatória para projetos urbanísticos"] }
  else
    { natureza := natureza, campos_obrigatorios := [], campos_opcionais := [],
      campos_ignorados := [], mensagens := [] }

example : (get_campos_condicionais_por_zona_e_natureza "ZAD1" "Não se aplica").campos_ocultos
    = ["testada_minima", "area_minima_lote", "avenida"] := by decide
example : (get_campos_condicionais_por_zona_e_natureza "ZC1" "Desmembramento").campos_obrigatorios
    = ["area_minima_lote"] := by decide
example : (validate_campos_por_natureza "Não se aplica" []).campos_ignorados
    = ["testada_minima", "area_minima_lote"] := by decide

/-! ## Helper lemmas -/

/-- The reference zone used by the lateral/rear setback evaluators for the
group-minimum lookup: a transition zone (`ZCT` prefix) with a truthy crossed
zone inherits the crossed zone. -/
def zonaRefOf (zona0 : String) (zona_atravessada : Option String) : String :=
  let zona := pyUpper (pyStrip zona0)
  if pyStartsWith zona "ZCT" && pyTruthy zona_atravessada then
    pyUpper (pyStrip (zona_atravessada.getD ""))
  else zona

theorem char_toLower_eq_r (c : Char) (h : c.toLower = 'r') : c.toUpper = 'R' := by
  simp [Char.toLower] at h
  split at h
  · next hle =>
    have hv : (c.toNat + 32).isValidChar := by
      simp [Nat.isValidChar]; omega
    rw [Char.ofNat, dif_pos hv] at h
    have h2 := congrArg Char.toNat h
    simp [Char.ofNatAux, Char.toNat, UInt32.toNat, UInt32.ofNat'] at h2
    have h3 : c.toNat = 82 := h2
    have hc : c = 'R' := by
      have h4 := Char.ofNat_toNat c
      rw [h3] at h4
      exact h4.symm
    subst hc
    decide
  · subst h
    decide

theorem char_toUpper_eq_R (c : Char) (h : c.toUpper = 'R') : c.toLower = 'r' := by
  simp [Char.toUpper] at h
  split at h
  · next hle =>
    have hv : (c.toNat - 32).isValidChar := by
      simp [Nat.isValidChar]; omega
    rw [Char.ofNat, dif_pos hv] at h
    have h2 := congrArg Char.toNat h
    simp [Char.ofNatAux, Char.toNat, UInt32.toNat, UInt32.ofNat'] at h2
    have h3 : c.toNat - 32 = 82 := h2
    have h4 : c.toNat = 114 := by omega
    have hc : c = 'r' := by
      have h5 := Char.ofNat_toNat c
      rw [h4] at h5
      exact h5.symm
    subst hc
    decide
  · subst h
    decide

theorem char_toLower_eq_c (c : Char) (h : c.toLower = 'c') : c.toUpper = 'C' := by
  simp [Char.toLower] at h
  split at h
  · next hle =>
    have hv : (c.toNat + 32).isValidChar := by
      simp [Nat.isValidChar]; omega
    rw [Char.ofNat, dif_pos hv] at h
    have h2 := congrArg Char.toNat h
    simp [Char.ofNatAux, Char.toNat, UInt32.toNat, UInt32.ofNat'] at h2
    have h3 : c.toNat = 67 := h2
    have hc : c = 'C' := by
      have h4 := Char.ofNat_toNat c
      rw [h3] at h4
      exact h4.symm
    subst hc
    decide
  · subst h
    decide

theorem char_toUpper_eq_C (c : Char) (h : c.toUpper = 'C') : c.toLower = 'c' := by
  simp [Char.toUpper] at h
  split at h
  · next hle =>
    have hv : (c.toNat - 32).isValidChar := by
      simp [Nat.isValidChar]; omega
    rw [Char.ofNat, dif_pos hv] at h
    have h2 := congrArg Char.toNat h
    simp [Char.ofNatAux, Char.toNat, UInt32.toNat, UInt32.ofNat'] at h2
    have h3 : c.toNat - 32 = 67 := h2
    have h4 : c.toNat = 99 := by omega
    have hc : c = 'c' := by
      have h5 := Char.ofNat_toNat c
      rw [h4] at h5
      exact h5.symm
    subst hc
    decide
  · subst h
    decide

/-- Python `capitalize` sends a string to `"Residencial"` exactly when its
`lower` is `"residencial"`: the match in `_calcular_recuo_frontal` is
case-insensitive. -/
theorem pyCapitalize_residencial_iff (s : String) :
    pyCapitalize s = "Residencial" ↔ pyLower s = "residencial" := by
  obtain ⟨l⟩ := s
  match l with
  | [] =>
    constructor <;> (intro h; exact absurd h (by decide))
  | c :: cs =>
    show (⟨c.toUpper :: cs.map Char.toLower⟩ : String) = "Residencial"
      ↔ (⟨c.toLower :: cs.map Char.toLower⟩ : String) = "residencial"
    rw [show ("Residencial" : String) = ⟨'R' :: "esidencial".data⟩ from by decide,
      show ("residencial" : String) = ⟨'r' :: "esidencial".data⟩ from by decide]
    simp only [String.ext_iff, List.cons.injEq]
    constructor
    · rintro ⟨hc, ht⟩
      exact ⟨char_toUpper_eq_R c hc, ht⟩
    · rintro ⟨hc, ht⟩
      exact ⟨char_toLower_eq_r c hc, ht⟩

/-- Python `capitalize` sends a string to `"Comercial"` exactly when its
`lower` is `"comercial"`. -/
theorem pyCapitalize_comercial_iff (s : String) :
    pyCapitalize s = "Comercial" ↔ pyLower s = "comercial" := by
  obtain ⟨l⟩ := s
  match l with
  | [] =>
    constructor <;> (intro h; exact absurd h (by decide))
  | c :: cs =>
    show (⟨c.toUpper :: cs.map Char.toLower⟩ : String) = "Comercial"
      ↔ (⟨c.toLower :: cs.map Char.toLower⟩ : String) = "comercial"
    rw [show ("Comercial" : String) = ⟨'C' :: "omercial".data⟩ from by decide,
      show ("comercial" : String) = ⟨'c' :: "omercial".data⟩ from by decide]
    simp only [String.ext_iff, List.cons.injEq]
    constructor
    · rintro ⟨hc, ht⟩
      exact ⟨char_toUpper_eq_C c hc, ht⟩
    · rintro ⟨hc, ht⟩
      exact ⟨char_toLower_eq_c c hc, ht⟩

/-! ## Claim theorems -/

/-- Claim C1 (code bug): `calcular_todos_parametros` never returns normally.
Its first step reads `dados.tipo_empreendimento`, an attribute that does not
exist on `DadosCalculoParametros` (whose use field is `tipologia`), so every
call raises `AttributeError`, which the aggregator's `except` clause
re-raises; no input ever yields the six-entry parameter set the
specification promises. -/
theorem calcular_todos_parametros_sempre_falha (dados : DadosCalculoParametros) :
    calcular_todos_parametros dados = .error
      "AttributeError: 'DadosCalculoParametros' object has no attribute 'tipo_empreendimento'" :=
  rfl

/-- Claim C10: the avenue whitelist of the maximum-height and
development-levy evaluators is matched by exact string equality, with no
trimming, case folding or accent normalization: every avenue string outside
the literal whitelist — including case or whitespace variants of whitelisted
entries such as `"av. paulista "` — yields the default height constant 12
and the "cobrança" levy status, whereas the zone input is trimmed and
upper-cased before any lookup. -/
theorem avenida_sem_normalizacao (a : String)
    (ha : avenidas_livres.contains a = false) (hne : a ≠ "") :
    (calcular_altura_maxima "ZCT2" (some a)).valor = some (.num 12) ∧
    (calcular_altura_maxima "ZCT4" (some a)).valor = some (.num 12) ∧
    (calcular_outorga_onerosa "ZCT2" (some a)).valor = some (.str "cobrança") ∧
    (calcular_outorga_onerosa "ZCT4" (some a)).valor = some (.str "cobrança") ∧
    calcular_altura_maxima " zct2 " (some a) = calcular_altura_maxima "ZCT2" (some a) ∧
    calcular_outorga_onerosa " zct2 " (some a) = calcular_outorga_onerosa "ZCT2" (some a) := by
  have htr : pyTruthy (some a) = true := by simp [pyTruthy, hne]
  have ha2 : a ∉ avenidas_livres := by simpa using ha
  have hz2 : pyUpper (pyStrip " zct2 ") = "ZCT2" := by decide
  have e1 : pyUpper (pyStrip "ZCT2") = "ZCT2" := by decide
  have e2 : pyUpper (pyStrip "ZCT4") = "ZCT4" := by decide
  refine ⟨?_, ?_, ?_, ?_, ?_, ?_⟩ <;>
    simp [calcular_altura_maxima, calcular_outorga_onerosa, hz2, e1, e2, htr, ha2]

/-- Witness for C10 at the concrete avenue `"av. paulista "`, a
case-and-whitespace variant of the whitelisted `"Av. Paulista"`. -/
theorem avenida_sem_normalizacao_witness :
    (calcular_altura_maxima "ZCT2" (some "av. paulista ")).valor = some (.num 12) ∧
    (calcular_outorga_onerosa "ZCT2" (some "av. paulista ")).valor = some (.str "cobrança") :=
  ⟨(avenida_sem_normalizacao "av. paulista " (by decide) (by decide)).1,
   (avenida_sem_normalizacao "av. paulista " (by decide) (by decide)).2.2.1⟩

/-- Claim C8: the development levy is waived (`"livre"`) exactly when the
normalized zone is ZCT2 or ZCT4 and a whitelisted avenue is supplied; in
every other case the evaluator returns `"cobrança"`, and it never sets an
error. -/
theorem outorga_onerosa_isencao_sse (zona : String) (avenida : Option String) :
    ((calcular_outorga_onerosa zona avenida).valor = some (.str "livre") ↔
      ((pyUpper (pyStrip zona) = "ZCT2" ∨ pyUpper (pyStrip zona) = "ZCT4") ∧
        ∃ a, avenida = some a ∧ a ∈ avenidas_livres)) ∧
    ((calcular_outorga_onerosa zona avenida).valor = some (.str "livre") ∨
      (calcular_outorga_onerosa zona avenida).valor = some (.str "cobrança")) ∧
    (calcular_outorga_onerosa zona avenida).erro = none := by
  rcases avenida with _ | a
  · simp [calcular_outorga_onerosa, pyTruthy]
  · by_cases he : a = ""
    · subst he
      have : ("" : String) ∉ avenidas_livres := by decide
      simp [calcular_outorga_onerosa, pyTruthy, this]
    · have htr : pyTruthy (some a) = true := by simp [pyTruthy, he]
      by_cases hz1 : pyUpper (pyStrip zona) = "ZCT2"
      · by_cases hm : a ∈ avenidas_livres <;>
          simp [calcular_outorga_onerosa, hz1, htr, hm]
      · by_cases hz2 : pyUpper (pyStrip zona) = "ZCT4"
        · by_cases hm : a ∈ avenidas_livres <;>
            simp [calcular_outorga_onerosa, hz1, hz2, htr, hm]
        · simp [calcular_outorga_onerosa, hz1, hz2, htr]

/-- Claim C7: the maximum-height evaluator returns the fixed constants for
ZC1 (12), ZC2 (8) and ZII (2); the symbolic `"livre"` value for ZAD2 and
ZCT1 regardless of avenue; for ZCT2 and ZCT4 an "avenue required" error
when no avenue is given, `"livre"` for a whitelisted avenue and the default
constant 12 for a non-whitelisted avenue; and a "zone not found" error for
every other zone. -/
theorem altura_maxima_espec :
    (∀ z av, pyUpper (pyStrip z) = "ZC1" →
      (calcular_altura_maxima z av).valor = some (.num 12) ∧
      (calcular_altura_maxima z av).erro = none) ∧
    (∀ z av, pyUpper (pyStrip z) = "ZC2" →
      (calcular_altura_maxima z av).valor = some (.num 8) ∧
      (calcular_altura_maxima z av).erro = none) ∧
    (∀ z av, pyUpper (pyStrip z) = "ZII" →
      (calcular_altura_maxima z av).valor = some (.num 2) ∧
      (calcular_altura_maxima z av).erro = none) ∧
    (∀ z av, (pyUpper (pyStrip z) = "ZAD2" ∨ pyUpper (pyStrip z) = "ZCT1") →
      (calcular_altura_maxima z av).valor = some (.str "livre") ∧
      (calcular_altura_maxima z av).erro = none) ∧
    (∀ z, (pyUpper (pyStrip z) = "ZCT2" ∨ pyUpper (pyStrip z) = "ZCT4") →
      (calcular_altura_maxima z none).valor = none ∧
      (calcular_altura_maxima z none).erro = some "⚠️ Avenida necessária para cálculo") ∧
    (∀ z a, (pyUpper (pyStrip z) = "ZCT2" ∨ pyUpper (pyStrip z) = "ZCT4") →
      avenidas_livres.contains a = true →
      (calcular_altura_maxima z (some a)).valor = some (.str "livre") ∧
      (calcular_altura_maxima z (some a)).erro = none) ∧
    (∀ z a, (pyUpper (pyStrip z) = "ZCT2" ∨ pyUpper (pyStrip z) = "ZCT4") →
      avenidas_livres.contains a = false → a ≠ "" →
      (calcular_altura_maxima z (some a)).valor = some (.num 12) ∧
      (calcular_altura_maxima z (some a)).erro = none) ∧
    (∀ z av, pyUpper (pyStrip z) ∉
        ["ZC1", "ZC2", "ZII", "ZAD2", "ZCT1", "ZCT2", "ZCT4"] →
      (calcular_altura_maxima z av).valor = none ∧
      (calcular_altura_maxima z av).erro
        = some ("⚠️ Zona " ++ pyUpper (pyStrip z) ++ " não encontrada")) := by
  refine ⟨?_, ?_, ?_, ?_, ?_, ?_, ?_, ?_⟩
  · intro z av h
    simp [calcular_altura_maxima, h]
  · intro z av h
    simp [calcular_altura_maxima, h]
  · intro z av h
    simp [calcular_altura_maxima, h]
  · rintro z av (h | h) <;> simp [calcular_altura_maxima, h]
  · rintro z (h | h) <;> simp [calcular_altura_maxima, h, pyTruthy]
  · rintro z a (h | h) hm <;>
    · have hmem : a ∈ avenidas_livres := by simpa using hm
      have hne : a ≠ "" := by
        rintro rfl
        exact absurd hmem (by decide)
      have htr : pyTruthy (some a) = true := by simp [pyTruthy, hne]
      simp [calcular_altura_maxima, h, htr, hmem]
  · rintro z a (h | h) hm hne <;>
    · have hmem : a ∉ avenidas_livres := by simpa using hm
      have htr : pyTruthy (some a) = true := by simp [pyTruthy, hne]
      simp [calcular_altura_maxima, h, htr, hmem]
  · intro z av h
    simp only [List.mem_cons, List.not_mem_nil, or_false, not_or] at h
    obtain ⟨h1, h2, h3, h4, h5, h6, h7⟩ := h
    simp [calcular_altura_maxima, h1, h2, h3, h4, h5, h6, h7]

/-- Witness for C7: each branch of the maximum-height contract evaluated at
a concrete input. -/
theorem altura_maxima_espec_witness :
    (calcular_altura_maxima "ZC1" none).valor = some (.num 12) ∧
    (calcular_altura_maxima "ZC2" none).valor = some (.num 8) ∧
    (calcular_altura_maxima "ZII" none).valor = some (.num 2) ∧
    (calcular_altura_maxima " zad2 " (some "Rua X")).valor = some (.str "livre") ∧
    (calcular_altura_maxima "ZCT2" none).erro = some "⚠️ Avenida necessária para cálculo" ∧
    (calcular_altura_maxima "ZCT2" (some "Av. Paulista")).valor = some (.str "livre") ∧
    (calcular_altura_maxima "ZCT4" (some "Rua X")).valor = some (.num 12) ∧
    (calcular_altura_maxima "ZZZ" none).erro = some "⚠️ Zona ZZZ não encontrada" :=
  ⟨(altura_maxima_espec.1 "ZC1" none (by decide)).1,
   (altura_maxima_espec.2.1 "ZC2" none (by decide)).1,
   (altura_maxima_espec.2.2.1 "ZII" none (by decide)).1,
   (altura_maxima_espec.2.2.2.1 " zad2 " (some "Rua X") (Or.inl (by decide))).1,
   (altura_maxima_espec.2.2.2.2.1 "ZCT2" (Or.inl (by decide))).2,
   (altura_maxima_espec.2.2.2.2.2.1 "ZCT2" "Av. Paulista" (Or.inl (by decide)) (by decide)).1,
   (altura_maxima_espec.2.2.2.2.2.2.1 "ZCT4" "Rua X" (Or.inr (by decide)) (by decide) (by decide)).1,
   (altura_maxima_espec.2.2.2.2.2.2.2 "ZZZ" none (by decide)).2⟩

/-- Claim C2: for zones of the standard schedule group (after trimming and
upper-casing) the frontal setback is 4.0 m for residential use and 1.5 m for
commercial use, the use being matched case-insensitively after trimming;
for ZEIS it is 2.0 m residential and 1.5 m commercial; an unknown zone
yields a "zone not found" error with no value, and a known zone with an
unrecognized use yields a "use not recognized" error with no value. -/
theorem recuo_frontal_espec :
    (∀ z t, zonas_padrao.contains (pyUpper (pyStrip z)) = true →
      pyLower (pyStrip t) = "residencial" →
      (calcular_recuo_frontal z t).valor = some (.num 4) ∧
      (calcular_recuo_frontal z t).erro = none) ∧
    (∀ z t, zonas_padrao.contains (pyUpper (pyStrip z)) = true →
      pyLower (pyStrip t) = "comercial" →
      (calcular_recuo_frontal z t).valor = some (.num (3/2)) ∧
      (calcular_recuo_frontal z t).erro = none) ∧
    (∀ z t, pyUpper (pyStrip z) = "ZEIS" →
      pyLower (pyStrip t) = "residencial" →
      (calcular_recuo_frontal z t).valor = some (.num 2) ∧
      (calcular_recuo_frontal z t).erro = none) ∧
    (∀ z t, pyUpper (pyStrip z) = "ZEIS" →
      pyLower (pyStrip t) = "comercial" →
      (calcular_recuo_frontal z t).valor = some (.num (3/2)) ∧
      (calcular_recuo_frontal z t).erro = none) ∧
    (∀ z t, zonas_padrao.contains (pyUpper (pyStrip z)) = false →
      pyUpper (pyStrip z) ≠ "ZEIS" →
      (calcular_recuo_frontal z t).valor = none ∧
      (calcular_recuo_frontal z t).erro
        = some ("⚠️ Zona " ++ pyUpper (pyStrip z) ++ " não encontrada")) ∧
    (∀ z t, (zonas_padrao.contains (pyUpper (pyStrip z)) = true ∨
        pyUpper (pyStrip z) = "ZEIS") →
      pyLower (pyStrip t) ≠ "residencial" → pyLower (pyStrip t) ≠ "comercial" →
      (calcular_recuo_frontal z t).valor = none ∧
      (calcular_recuo_frontal z t).erro
        = some ("⚠️ Uso " ++ pyCapitalize (pyStrip t) ++ " não reconhecido para zona "
          ++ pyUpper (pyStrip z))) := by
  have hzeis_np : ("ZEIS" : String) ∉ zonas_padrao := by decide
  refine ⟨?_, ?_, ?_, ?_, ?_, ?_⟩
  · intro z t hz ht
    have hz2 : pyUpper (pyStrip z) ∈ zonas_padrao := by simpa using hz
    have hcap : pyCapitalize (pyStrip t) = "Residencial" :=
      (pyCapitalize_residencial_iff (pyStrip t)).mpr ht
    simp [calcular_recuo_frontal, hz2, hcap]
  · intro z t hz ht
    have hz2 : pyUpper (pyStrip z) ∈ zonas_padrao := by simpa using hz
    have hcap : pyCapitalize (pyStrip t) = "Comercial" :=
      (pyCapitalize_comercial_iff (pyStrip t)).mpr ht
    simp [calcular_recuo_frontal, hz2, hcap]
  · intro z t hz ht
    have hcap : pyCapitalize (pyStrip t) = "Residencial" :=
      (pyCapitalize_residencial_iff (pyStrip t)).mpr ht
    simp [calcular_recuo_frontal, hz, hzeis_np, hcap]
  · intro z t hz ht
    have hcap : pyCapitalize (pyStrip t) = "Comercial" :=
      (pyCapitalize_comercial_iff (pyStrip t)).mpr ht
    simp [calcular_recuo_frontal, hz, hzeis_np, hcap]
  · intro z t hz hzeis
    have hzp : ¬ (pyUpper (pyStrip z) ∈ zonas_padrao) := by simpa using hz
    simp [calcular_recuo_frontal, hzp, hzeis]
  · intro z t hz hr hc
    have hcap1 : pyCapitalize (pyStrip t) ≠ "Residencial" := fun hh =>
      hr ((pyCapitalize_residencial_iff (pyStrip t)).mp hh)
    have hcap2 : pyCapitalize (pyStrip t) ≠ "Comercial" := fun hh =>
      hc ((pyCapitalize_comercial_iff (pyStrip t)).mp hh)
    rcases hz with hz | hz
    · have hz2 : pyUpper (pyStrip z) ∈ zonas_padrao := by simpa using hz
      simp [calcular_recuo_frontal, hz2, hcap1, hcap2]
    · simp [calcular_recuo_frontal, hz, hzeis_np, hcap1, hcap2]

/-- Witness for C2: the frontal setback contract evaluated at concrete
inputs, including case-variant uses. -/
theorem recuo_frontal_espec_witness :
    (calcular_recuo_frontal " zc1 " "RESIDENCIAL").valor = some (.num 4) ∧
    (calcular_recuo_frontal "ZH2" " comercial ").valor = some (.num (3/2)) ∧
    (calcular_recuo_frontal "zeis" "Residencial").valor = some (.num 2) ∧
    (calcular_recuo_frontal "ZEIS" "comercial").valor = some (.num (3/2)) ∧
    (calcular_recuo_frontal "ZZZ" "Residencial").erro
      = some "⚠️ Zona ZZZ não encontrada" ∧
    (calcular_recuo_frontal "ZC1" "Misto").erro
      = some "⚠️ Uso Misto não reconhecido para zona ZC1" :=
  ⟨(recuo_frontal_espec.1 " zc1 " "RESIDENCIAL" (by decide) (by decide)).1,
   (recuo_frontal_espec.2.1 "ZH2" " comercial " (by decide) (by decide)).1,
   (recuo_frontal_espec.2.2.1 "zeis" "Residencial" (by decide) (by decide)).1,
   (recuo_frontal_espec.2.2.2.1 "ZEIS" "comercial" (by decide) (by decide)).1,
   (recuo_frontal_espec.2.2.2.2.1 "ZZZ" "Residencial" (by decide) (by decide)).2,
   (recuo_frontal_espec.2.2.2.2.2 "ZC1" "Misto" (Or.inl (by decide)) (by decide) (by decide)).2⟩

/-- Claim C6: the minimum-frontage evaluator returns value absent and error
absent for nature "não se aplica" (matched after trimming and lower-casing);
a "nature required" error when the nature is missing (or empty); the
frontage-table constant when the (zone, nature) pair is in the table; and a
"combination not found" error with no value when it is not. -/
theorem testada_minima_espec :
    (∀ z n, n ≠ "" → pyLower (pyStrip n) = "não se aplica" →
      (calcular_testada_minima z (some n)).valor = none ∧
      (calcular_testada_minima z (some n)).erro = none) ∧
    (∀ z, (calcular_testada_minima z none).valor = none ∧
      (calcular_testada_minima z none).erro
        = some "⚠️ Natureza do empreendimento necessária para cálculo") ∧
    (∀ z, (calcular_testada_minima z (some "")).valor = none ∧
      (calcular_testada_minima z (some "")).erro
        = some "⚠️ Natureza do empreendimento necessária para cálculo") ∧
    (∀ z n v, n ≠ "" → pyLower (pyStrip n) ≠ "não se aplica" →
      pyLower (pyStrip n) ≠ "" →
      regras_testada.lookup (pyUpper (pyStrip z), pyLower (pyStrip n)) = some v →
      (calcular_testada_minima z (some n)).valor = some (.num v) ∧
      (calcular_testada_minima z (some n)).erro = none) ∧
    (∀ z n, n ≠ "" → pyLower (pyStrip n) ≠ "não se aplica" →
      pyLower (pyStrip n) ≠ "" →
      regras_testada.lookup (pyUpper (pyStrip z), pyLower (pyStrip n)) = none →
      (calcular_testada_minima z (some n)).valor = none ∧
      (calcular_testada_minima z (some n)).erro
        = some ("⚠️ Combinação zona " ++ pyUpper (pyStrip z) ++ " + natureza "
          ++ pyLower (pyStrip n) ++ " não encontrada")) := by
  refine ⟨?_, ?_, ?_, ?_, ?_⟩
  · intro z n hne ht
    simp [calcular_testada_minima, hne, ht]
  · intro z
    simp [calcular_testada_minima]
  · intro z
    simp [calcular_testada_minima]
  · intro z n v hne hna hnil hlk
    simp [calcular_testada_minima, hne, hna, hnil, hlk]
  · intro z n hne hna hnil hlk
    simp [calcular_testada_minima, hne, hna, hnil, hlk]

/-- Witness for C6: the minimum-frontage contract at concrete inputs,
including a table hit (`ZAD1`, subdivision = 10 m) and the explicitly
inapplicable nature. -/
theorem testada_minima_espec_witness :
    ((calcular_testada_minima "ZAD1" (some "Não se aplica")).valor = none ∧
      (calcular_testada_minima "ZAD1" (some "Não se aplica")).erro = none) ∧
    (calcular_testada_minima "ZC1" none).erro
      = some "⚠️ Natureza do empreendimento necessária para cálculo" ∧
    (calcular_testada_minima "ZAD1" (some "Desmembramento")).valor = some (.num 10) ∧
    (calcular_testada_minima "ZC1" (some "Desmembramento")).erro
      = some "⚠️ Combinação zona ZC1 + natureza desmembramento não encontrada" :=
  ⟨testada_minima_espec.1 "ZAD1" "Não se aplica" (by decide) (by decide),
   (testada_minima_espec.2.1 "ZC1").2,
   (testada_minima_espec.2.2.2.1 "ZAD1" "Desmembramento" 10 (by decide) (by decide)
     (by decide) (by with_unfolding_all decide)).1,
   (testada_minima_espec.2.2.2.2 "ZC1" "Desmembramento" (by decide) (by decide)
     (by decide) (by with_unfolding_all decide)).2⟩

/-- Claim C3: for the lateral setback, a missing floor count or total height
yields the "insufficient data" error; with both present and more than two
floors the value is `max(height / 10, group minimum)` rendered to two
decimal places followed by `" m"` (minimum 1.5 for the first group, 2.0 for
the second, looked up on the possibly substituted zone); a substituted zone
in neither group yields the "uncatalogued zone" error (the insufficient-data
check runs first, as in the source). -/
theorem recuo_lateral_espec :
    (∀ z p h za, (grupo_min_15.contains (zonaRefOf z za) = true ∨
        grupo_min_20.contains (zonaRefOf z za) = true) →
      (p = none ∨ h = none) →
      (calcular_recuo_lateral z p h za).valor = none ∧
      (calcular_recuo_lateral z p h za).erro
        = some "⚠️ Dados insuficientes para cálculo (pavimentos e altura total necessários)") ∧
    (∀ z (p : ℤ) (h : ℚ) za, 2 < p → grupo_min_15.contains (zonaRefOf z za) = true →
      (calcular_recuo_lateral z (some p) (some h) za).valor
        = some (.str (pyFormatFixed 2 (pyMax (h / 10) (3/2)) ++ " m")) ∧
      (calcular_recuo_lateral z (some p) (some h) za).erro = none) ∧
    (∀ z (p : ℤ) (h : ℚ) za, 2 < p → grupo_min_15.contains (zonaRefOf z za) = false →
      grupo_min_20.contains (zonaRefOf z za) = true →
      (calcular_recuo_lateral z (some p) (some h) za).valor
        = some (.str (pyFormatFixed 2 (pyMax (h / 10) 2) ++ " m")) ∧
      (calcular_recuo_lateral z (some p) (some h) za).erro = none) ∧
    (∀ z (p : ℤ) (h : ℚ) za, grupo_min_15.contains (zonaRefOf z za) = false →
      grupo_min_20.contains (zonaRefOf z za) = false →
      (calcular_recuo_lateral z (some p) (some h) za).valor = none ∧
      (calcular_recuo_lateral z (some p) (some h) za).erro
        = some ("⚠️ Zona " ++ pyUpper (pyStrip z) ++ " não cadastrada em nenhuma regra")) := by
  refine ⟨?_, ?_, ?_, ?_⟩
  · intro z p h za _ hm
    rcases p with _ | p <;> rcases h with _ | h
    · simp [calcular_recuo_lateral]
    · simp [calcular_recuo_lateral]
    · simp [calcular_recuo_lateral]
    · simp at hm
  · intro z p h za hp h15
    simp [zonaRefOf] at h15
    have hnp : ¬ (p ≤ 2) := by omega
    simp [calcular_recuo_lateral, h15, hnp]
  · intro z p h za hp h15 h20
    simp [zonaRefOf] at h15 h20
    have hnp : ¬ (p ≤ 2) := by omega
    simp [calcular_recuo_lateral, h15, h20, hnp]
  · intro z p h za h15 h20
    simp [zonaRefOf] at h15 h20
    simp [calcular_recuo_lateral, h15, h20]

/-- Witness for C3: the spec's own example — standard-group zone, 5 floors,
height 20.0 — rendered as "2.00 m", plus the two error branches. -/
theorem recuo_lateral_espec_witness :
    (calcular_recuo_lateral "ZC1" (some 5) (some 20) none).valor
      = some (.str "2.00 m") ∧
    (calcular_recuo_lateral "ZI1" (some 5) (some 30) none).valor
      = some (.str "3.00 m") ∧
    (calcular_recuo_lateral "ZC1" none (some 20) none).erro
      = some "⚠️ Dados insuficientes para cálculo (pavimentos e altura total necessários)" ∧
    (calcular_recuo_lateral "ZZZ" (some 5) (some 20) none).erro
      = some "⚠️ Zona ZZZ não cadastrada em nenhuma regra" := by
  refine ⟨?_, ?_, ?_, ?_⟩
  · have h := (recuo_lateral_espec.2.1 "ZC1" 5 20 none (by omega) (by decide)).1
    rw [h]
    with_unfolding_all rfl
  · have h := (recuo_lateral_espec.2.2.1 "ZI1" 5 30 none (by omega) (by decide) (by decide)).1
    rw [h]
    with_unfolding_all rfl
  · exact (recuo_lateral_espec.1 "ZC1" none (some 20) none (Or.inl (by decide))
      (Or.inl rfl)).2
  · exact (recuo_lateral_espec.2.2.2 "ZZZ" 5 20 none (by decide) (by decide)).2

/-- Claim C4 counterexample: for a 1.5 m-group zone with at most two floors
the evaluator renders the group minimum with ONE decimal place ("1.5"), not
two ("1.50") as the claim states. -/
theorem recuo_lateral_simbolico_contraexemplo :
    (calcular_recuo_lateral "ZC1" (some 2) (some 10) none).valor
      = some (.str "0 m (exceto se houver aberturas → mínimo 1.5 m)") ∧
    (calcular_recuo_lateral "ZC1" (some 2) (some 10) none).valor
      ≠ some (.str "0 m (exceto se houver aberturas → mínimo 1.50 m)") := by
  constructor
  · with_unfolding_all rfl
  · intro hcontra
    have h1 : (calcular_recuo_lateral "ZC1" (some 2) (some 10) none).valor
        = some (.str "0 m (exceto se houver aberturas → mínimo 1.5 m)") := by
      with_unfolding_all rfl
    rw [h1] at hcontra
    exact absurd hcontra (by decide)

/-- Claim C4 (amended): for every zone of the 1.5 m setback-minimum group,
floor count at most 2 and any supplied total height, the lateral setback
evaluator returns, with no error, the symbolic string value stating 0 m
except where there are openings, with the group minimum rendered to ONE
decimal place ("1.5"). -/
theorem recuo_lateral_simbolico (z : String) (p : ℤ) (h : ℚ)
    (hz : grupo_min_15.contains (pyUpper (pyStrip z)) = true) (hp : p ≤ 2) :
    (calcular_recuo_lateral z (some p) (some h) none).valor
      = some (.str "0 m (exceto se houver aberturas → mínimo 1.5 m)") ∧
    (calcular_recuo_lateral z (some p) (some h) none).erro = none := by
  have hfmt : pyFormatFixed 1 (3/2 : ℚ) = "1.5" := by with_unfolding_all rfl
  have hz2 : pyUpper (pyStrip z) ∈ grupo_min_15 := by simpa using hz
  simp [calcular_recuo_lateral, pyTruthy, hz2, hp, hfmt]

/-- Witness for the amended C4 at the concrete input ZC1, 2 floors,
height 10. -/
theorem recuo_lateral_simbolico_witness :
    (calcular_recuo_lateral "ZC1" (some 2) (some 10) none).valor
      = some (.str "0 m (exceto se houver aberturas → mínimo 1.5 m)") ∧
    (calcular_recuo_lateral "ZC1" (some 2) (some 10) none).erro = none :=
  recuo_lateral_simbolico "ZC1" 2 10 (by decide) (by omega)

/-- Claim C5: the rear-setback evaluator computes exactly the lateral-setback
result with the parameter name replaced by `"recuo_fundos"`, for every
combination of zone, floor count, total height and crossed zone; both use
the same substituted reference zone for the group lookup: the crossed zone
(trimmed, upper-cased) when the zone starts with `ZCT` and a crossed zone is
supplied, the zone itself otherwise. -/
theorem recuo_fundos_igual_lateral :
    (∀ z p h za, calcular_recuo_fundos z p h za
        = { calcular_recuo_lateral z p h za with nome := "recuo_fundos" } ∧
      (calcular_recuo_lateral z p h za).nome = "recuo_lateral") ∧
    (∀ z za, pyStartsWith (pyUpper (pyStrip z)) "ZCT" = true → pyTruthy za = true →
      zonaRefOf z za = pyUpper (pyStrip (za.getD ""))) ∧
    (∀ z za, pyStartsWith (pyUpper (pyStrip z)) "ZCT" = false ∨ pyTruthy za = false →
      zonaRefOf z za = pyUpper (pyStrip z)) := by
  refine ⟨?_, ?_, ?_⟩
  · intro z p h za
    constructor
    · rcases p with _ | p <;> rcases h with _ | h
      · simp [calcular_recuo_lateral, calcular_recuo_fundos]
      · simp [calcular_recuo_lateral, calcular_recuo_fundos]
      · simp [calcular_recuo_lateral, calcular_recuo_fundos]
      · by_cases h15 : zonaRefOf z za ∈ grupo_min_15
        · simp [zonaRefOf] at h15
          by_cases hp : p ≤ 2 <;>
            simp [calcular_recuo_lateral, calcular_recuo_fundos, h15, hp]
        · by_cases h20 : zonaRefOf z za ∈ grupo_min_20
          · simp [zonaRefOf] at h15 h20
            by_cases hp : p ≤ 2 <;>
              simp [calcular_recuo_lateral, calcular_recuo_fundos, h15, h20, hp]
          · simp [zonaRefOf] at h15 h20
            simp [calcular_recuo_lateral, calcular_recuo_fundos, h15, h20]
    · rcases p with _ | p <;> rcases h with _ | h
      · simp [calcular_recuo_lateral]
      · simp [calcular_recuo_lateral]
      · simp [calcular_recuo_lateral]
      · by_cases h15 : zonaRefOf z za ∈ grupo_min_15
        · simp [zonaRefOf] at h15
          by_cases hp : p ≤ 2 <;> simp [calcular_recuo_lateral, h15, hp]
        · by_cases h20 : zonaRefOf z za ∈ grupo_min_20
          · simp [zonaRefOf] at h15 h20
            by_cases hp : p ≤ 2 <;> simp [calcular_recuo_lateral, h15, h20, hp]
          · simp [zonaRefOf] at h15 h20
            simp [calcular_recuo_lateral, h15, h20]
  · intro z za hzct htr
    simp [zonaRefOf, hzct, htr]
  · intro z za hd
    rcases hd with hd | hd <;> simp [zonaRefOf, hd]

/-- Witness for C5 at a concrete transition-zone input with a crossed zone:
both evaluators substitute the crossed zone and agree up to the name. -/
theorem recuo_fundos_igual_lateral_witness :
    calcular_recuo_fundos "ZCT2" (some 5) (some 20) (some " zi1 ")
      = { calcular_recuo_lateral "ZCT2" (some 5) (some 20) (some " zi1 ")
          with nome := "recuo_fundos" } ∧
    zonaRefOf "ZCT2" (some " zi1 ") = "ZI1" :=
  ⟨(recuo_fundos_igual_lateral.1 "ZCT2" (some 5) (some 20) (some " zi1 ")).1,
   by
    rw [recuo_fundos_igual_lateral.2.1 "ZCT2" (some " zi1 ") (by decide) (by decide)]
    decide⟩

/-- Claim C9: when the field dependency resolver is queried with nature
"Não se aplica", neither `testada_minima` nor `area_minima_lote` appears
among the mandatory or optional fields of either resolver function, for any
zone; both fields are hidden (`campos_ocultos` — `testada_minima` whenever
the zone carries a frontage rule at all, and it is never visible) or
ignored (`campos_ignorados` of the per-nature validation, whose mandatory
list is empty). -/
theorem nao_se_aplica_oculta_campos (z : String) (campos : List (String × String)) :
    ("testada_minima" ∉
      (get_campos_condicionais_por_zona_e_natureza z "Não se aplica").campos_obrigatorios) ∧
    ("area_minima_lote" ∉
      (get_campos_condicionais_por_zona_e_natureza z "Não se aplica").campos_obrigatorios) ∧
    ("testada_minima" ∉
      (get_campos_condicionais_por_zona_e_natureza z "Não se aplica").campos_opcionais) ∧
    ("area_minima_lote" ∉
      (get_campos_condicionais_por_zona_e_natureza z "Não se aplica").campos_opcionais) ∧
    ("testada_minima" ∉
      (get_campos_condicionais_por_zona_e_natureza z "Não se aplica").campos_visiveis) ∧
    ("area_minima_lote" ∉
      (get_campos_condicionais_por_zona_e_natureza z "Não se aplica").campos_visiveis) ∧
    ("area_minima_lote" ∈
      (get_campos_condicionais_por_zona_e_natureza z "Não se aplica").campos_ocultos) ∧
    (zonas_com_testada.contains (pyUpper (pyStrip z)) = true →
      "testada_minima" ∈
        (get_campos_condicionais_por_zona_e_natureza z "Não se aplica").campos_ocultos) ∧
    (validate_campos_por_natureza "Não se aplica" campos).campos_obrigatorios = [] ∧
    (validate_campos_por_natureza "Não se aplica" campos).campos_opcionais = [] ∧
    ("testada_minima" ∈
      (validate_campos_por_natureza "Não se aplica" campos).campos_ignorados) ∧
    ("area_minima_lote" ∈
      (validate_campos_por_natureza "Não se aplica" campos).campos_ignorados) := by
  have hstrip : pyStrip "Não se aplica" = "Não se aplica" := by decide
  have hn1 : ("Não se aplica" : String) ∉ naturezas_com_testada := by decide
  have hn2 : ("Não se aplica" : String) ∉ naturezas_arquitetonico := by decide
  have hn3 : ("Não se aplica" : String) ∉ naturezas_urbanistico := by decide
  by_cases hz : pyUpper (pyStrip z) ∈ zonas_com_testada <;>
    by_cases ha : pyUpper (pyStrip z) ∈ zonas_com_avenida <;>
      simp [get_campos_condicionais_por_zona_e_natureza, validate_campos_por_natureza,
        hstrip, hn1, hn2, hn3, hz, ha]

/-- Witness for C9 at the concrete zone `ZAD1` (a zone with a frontage
rule): both fields are hidden, none mandatory. -/
theorem nao_se_aplica_oculta_campos_witness :
    "testada_minima" ∈
      (get_campos_condicionais_por_zona_e_natureza "ZAD1" "Não se aplica").campos_ocultos ∧
    "testada_minima" ∉
      (get_campos_condicionais_por_zona_e_natureza "ZAD1" "Não se aplica").campos_obrigatorios :=
  ⟨(nao_se_aplica_oculta_campos "ZAD1" []).2.2.2.2.2.2.2.1 (by decide),
   (nao_se_aplica_oculta_campos "ZAD1" []).1⟩
